import Mathlib

/-
  Shallow embedding of the retirement projection engine and the aggregate
  financial metrics of the AppDeploy backend:

    backend/app/api/services/retirement_functions.py
    backend/app/api/services/utils_calculation_functions.py

  Monetary values (Python `Decimal` and `float`) are modelled as exact
  rationals (ℚ); the 28-significant-digit context rounding of `Decimal` and
  binary floating point rounding are abstracted away.  Python code paths that
  raise an exception (unbound local variable, decimal division by zero) are
  modelled by functions returning `Option`, with `none` marking the raising
  path.  Configuration constants come from `backend/app/config.py`.
-/

/-
  Tax model: `calculate_after_tax_income` (retirement_functions.py lines
  172-196; an identical copy lives in utils_calculation_functions.py lines
  74-104).  The loop body for one bracket `(lower, upper, rate)` is
  `if annual_income > lower: tax += min(annual_income - lower, upper - lower) * rate`.
  The final bracket has `upper = inf`, so its `min` degenerates to the plain
  difference.  The early `break` of the loop is equivalent to skipping the
  remaining brackets because the lower bounds are strictly ascending, so all
  skipped terms would have been 0.
-/

def bracket_tax (annual lo hi rate : ℚ) : ℚ :=
  if lo < annual then min (annual - lo) (hi - lo) * rate else 0

def top_bracket_tax (annual lo rate : ℚ) : ℚ :=
  if lo < annual then (annual - lo) * rate else 0

def calculate_after_tax_income (monthly_income : ℚ) : ℚ :=
  let annual_income := monthly_income * 12
  let tax_payable :=
    bracket_tax annual_income 0 55867 (15/100)
    + bracket_tax annual_income 55867 111733 (205/1000)
    + bracket_tax annual_income 111733 173205 (26/100)
    + bracket_tax annual_income 173205 246752 (29/100)
    + top_bracket_tax annual_income 246752 (33/100)
  (annual_income - tax_payable) / 12

/-
  Compound growth primitives (retirement_functions.py lines 148-170 in
  Decimal form and lines 540-564 in float form; the two have identical
  semantics over exact rationals, and the float pair is the one in scope at
  call time since it is defined last in the module).  `years <= 0` is the
  `years = 0` case of the ℕ-valued argument here.
-/

def future_value (current_amount real_growth_rate : ℚ) (years : ℕ) : ℚ :=
  if years = 0 then current_amount
  else current_amount * (1 + real_growth_rate) ^ years

def calculate_future_savings (current_savings annual_savings real_growth_rate : ℚ) :
    ℕ → ℚ
  | 0 => current_savings
  | years + 1 =>
      calculate_future_savings current_savings annual_savings real_growth_rate years
        * (1 + real_growth_rate) + annual_savings

/-
  Input record of `calculate_current_retirement_plan` (the flattened
  `user_data` dict: profile.age, financial.*, retirement.*).
-/

structure UserData where
  age : ℕ
  monthly_income : ℚ
  monthly_expenses : ℚ
  monthly_savings : ℚ
  cash_holdings : ℚ
  investment_holdings : ℚ
  rrsp_savings : ℚ
  tfsa_savings : ℚ
  desired_retirement_lifestyle : String
deriving DecidableEq

/- Fields of `RetirementPlanResponse` as populated at lines 291-307. -/
structure RetirementPlanResult where
  retirement_age : ℕ
  current_age : ℕ
  years_until_retirement : ℕ
  years_in_retirement : ℕ
  monthly_income : ℚ
  monthly_expenses : ℚ
  current_savings : ℚ
  monthly_contribution : ℚ
  projected_savings : ℚ
  required_savings : ℚ
  savings_gap : ℚ
  retirement_income : ℚ
  retirement_expenses : ℚ
  government_benefits : ℚ
  savings_income : ℚ
deriving DecidableEq

/- Settings from backend/app/config.py (lines 204-210 of
   retirement_functions.py divide the two percentage-valued settings by 100). -/

def inflationRate : ℚ := 3 / 100
def expectedReturn : ℚ := 7 / 100
def withdrawalRate : ℚ := 4 / 100
def lifeExpectancy : ℕ := 90
def cppIncome : ℚ := 15043
def oasIncome : ℚ := 8400

/- lifestyle_map lookup with default settings.RETIREMENT_LIFESTYLE_FACTOR = 0.7
   (lines 230-237). -/
def lifestyleFactor : String → ℚ
  | "frugal" => 6/10
  | "moderate" => 7/10
  | "comfortable" => 8/10
  | "lavish" => 9/10
  | _ => 7/10

/- annual_savings = Decimal(str(calculate_after_tax_income(float(monthly_savings)))) * 12
   (lines 218-219). -/
def annualSavings (u : UserData) : ℚ :=
  calculate_after_tax_income u.monthly_savings * 12

/- current_investments = rrsp + tfsa + investment_holdings (lines 222-226). -/
def currentInvestments (u : UserData) : ℚ :=
  u.rrsp_savings + u.tfsa_savings + u.investment_holdings

/- Loop-body quantities of the feasibility search at candidate age
   `current_age + years` (lines 249-268). -/

def projectedCash (u : UserData) (years : ℕ) : ℚ :=
  future_value u.cash_holdings inflationRate years

def projectedInvestments (u : UserData) (years : ℕ) : ℚ :=
  calculate_future_savings (currentInvestments u) (annualSavings u) expectedReturn years

def totalProjectedAssets (u : UserData) (years : ℕ) : ℚ :=
  projectedCash u years + projectedInvestments u years

def governmentBenefits (years : ℕ) : ℚ :=
  future_value cppIncome inflationRate years + future_value oasIncome inflationRate years

def requiredSavings (u : UserData) (years : ℕ) : ℚ :=
  u.monthly_expenses * 12 * (1 + inflationRate) ^ years
    * lifestyleFactor u.desired_retirement_lifestyle / withdrawalRate

/- The stopping test at line 270: total_projected_assets >= required_savings. -/
def feasibleAt (u : UserData) (a : ℕ) : Prop :=
  requiredSavings u (a - u.age) ≤ totalProjectedAssets u (a - u.age)

instance (u : UserData) (a : ℕ) : Decidable (feasibleAt u a) := by
  unfold feasibleAt; infer_instance

/-
  The `while retirement_age <= 90` search (lines 244-276), as a fuel
  recursion so that it evaluates by kernel reduction.  The inner
  `if years_until_retirement < 0: break` is unreachable because the
  candidate starts at `current_age` and only increments.  Starting from
  `a = u.age` the loop performs at most 92 calls before reaching the
  `a > 90` exit, so fuel 92 is never exhausted.
-/
def searchFromAge (u : UserData) : ℕ → ℕ → Option ℕ
  | 0, _ => none
  | fuel + 1, a =>
      if a ≤ 90 then
        if feasibleAt u a then some a else searchFromAge u fuel (a + 1)
      else none

def searchRetirementAge (u : UserData) : Option ℕ :=
  searchFromAge u 92 u.age

/-
  Response when the search broke at a feasible age `a` (lines 270-274 set
  feasible_projected_savings / feasible_required_savings, lines 282-307
  assemble the response; total_government_benefits is the value from the
  breaking iteration).
-/
def planResultFound (u : UserData) (a : ℕ) : RetirementPlanResult :=
  { retirement_age := a
    current_age := u.age
    years_until_retirement := a - u.age
    years_in_retirement := lifeExpectancy - a
    monthly_income := u.monthly_income
    monthly_expenses := u.monthly_expenses
    current_savings := u.cash_holdings + currentInvestments u
    monthly_contribution := calculate_after_tax_income u.monthly_savings
    projected_savings := totalProjectedAssets u (a - u.age)
    required_savings := requiredSavings u (a - u.age)
    savings_gap := max 0 (requiredSavings u (a - u.age) - totalProjectedAssets u (a - u.age))
    retirement_income :=
      (governmentBenefits (a - u.age) + totalProjectedAssets u (a - u.age) * withdrawalRate) / 12
    retirement_expenses := u.monthly_expenses * (1 + inflationRate) ^ (a - u.age)
    government_benefits := governmentBenefits (a - u.age) / 12
    savings_income := totalProjectedAssets u (a - u.age) * withdrawalRate / 12 }

/-
  Response when the search exhausted the ceiling (lines 278-280 clamp
  retirement_age to 90).  `feasible_projected_savings` and
  `feasible_required_savings` keep their initial values from lines 241-242
  (current cash + investments, and 0) because line 272-273 only run on the
  feasible branch, so `projected_savings`, `required_savings`,
  `savings_gap`, `retirement_income` and `savings_income` are all computed
  from those stale initial values.  `total_government_benefits` is the value
  of the last loop iteration, the candidate age 90.
-/
def planResultCeiling (u : UserData) : RetirementPlanResult :=
  { retirement_age := 90
    current_age := u.age
    years_until_retirement := 90 - u.age
    years_in_retirement := lifeExpectancy - 90
    monthly_income := u.monthly_income
    monthly_expenses := u.monthly_expenses
    current_savings := u.cash_holdings + currentInvestments u
    monthly_contribution := calculate_after_tax_income u.monthly_savings
    projected_savings := u.cash_holdings + currentInvestments u
    required_savings := 0
    savings_gap := max 0 (0 - (u.cash_holdings + currentInvestments u))
    retirement_income :=
      (governmentBenefits (90 - u.age)
        + (u.cash_holdings + currentInvestments u) * withdrawalRate) / 12
    retirement_expenses := u.monthly_expenses * (1 + inflationRate) ^ (90 - u.age)
    government_benefits := governmentBenefits (90 - u.age) / 12
    savings_income := (u.cash_holdings + currentInvestments u) * withdrawalRate / 12 }

/-
  `calculate_current_retirement_plan` (lines 198-307).  When
  `current_age > 90` the while loop body never executes, so the read of
  `total_government_benefits` at line 283 raises NameError (local variable
  referenced before assignment); that raising path is `none`.
-/
def calculate_current_retirement_plan (u : UserData) : Option RetirementPlanResult :=
  match searchRetirementAge u with
  | some a => some (planResultFound u a)
  | none => if u.age ≤ 90 then some (planResultCeiling u) else none

/-
  `calculate_retirement_what_if` (retirement_functions.py lines 373-534),
  the implementation wired to the /retirement what-if route.  Fields of
  `RetirementWhatIfRequest`.
-/

structure WhatIfScenario where
  current_age : ℤ
  retirement_age : ℤ
  life_expectancy : ℤ
  current_savings : ℚ
  monthly_contribution : ℚ
  expected_return_rate : ℚ
  inflation_rate : ℚ
  desired_retirement_income : ℚ
  include_cpp_oas : Bool
deriving DecidableEq

/- `RetirementWhatIfResponse`; `monthly_income_breakdown` is flattened into
   its two entries `savings_income` and `government_benefits`. -/
structure WhatIfResult where
  retirement_age : ℤ
  total_savings_at_retirement : ℚ
  monthly_retirement_income : ℚ
  savings_gap : ℚ
  monthly_contribution_needed : ℚ
  years_until_retirement : ℤ
  retirement_duration : ℤ
  savings_by_year : List (ℤ × ℚ)
  savings_income : ℚ
  government_benefits : ℚ
deriving DecidableEq

/- Percentage auto-detection, lines 396-398: divide by 100 exactly when the
   raw value exceeds 1, applied to both expected_return_rate and
   inflation_rate. -/
def normalizeRate (x : ℚ) : ℚ := if 1 < x then x / 100 else x

/- The year-by-year accumulation loop body of lines 432-444:
   interest = projected * rate; projected = projected + interest + annual,
   i.e. projected * (1 + rate) + annual, applied n times. -/
def projectSavings (start rate annual : ℚ) : ℕ → ℚ
  | 0 => start
  | n + 1 => projectSavings start rate annual n * (1 + rate) + annual

def whatIfYears (s : WhatIfScenario) : ℤ :=
  s.retirement_age - s.current_age

/- real_return_rate = (1 + expected) / (1 + inflation) - 1 (line 422). -/
def whatIfRealRate (s : WhatIfScenario) : ℚ :=
  (1 + normalizeRate s.expected_return_rate) / (1 + normalizeRate s.inflation_rate) - 1

/- `range(years_until_retirement)` of a negative count is empty. -/
def whatIfProjected (s : WhatIfScenario) : ℚ :=
  projectSavings s.current_savings (whatIfRealRate s) (s.monthly_contribution * 12)
    (whatIfYears s).toNat

/- savings_by_year: one entry per loop iteration holding the value BEFORE
   that year's growth (lines 433-437), plus the final retirement-year entry
   (lines 447-450); `current_year` is hardcoded to 2023 (line 428). -/
def whatIfTrajectory (s : WhatIfScenario) : List (ℤ × ℚ) :=
  (List.range (whatIfYears s).toNat).map
    (fun (i : ℕ) => ((2023 + (i : ℤ)),
      projectSavings s.current_savings (whatIfRealRate s) (s.monthly_contribution * 12) i))
  ++ [((2023 + ((whatIfYears s).toNat : ℤ)), whatIfProjected s)]

/- withdrawal_rate is hardcoded to Decimal('0.04') at line 456. -/
def whatIfSavingsMonthlyIncome (s : WhatIfScenario) : ℚ :=
  whatIfProjected s * (4/100) / 12

/- CPP 1200 and OAS 615 monthly, lines 464-469. -/
def whatIfGovMonthly (s : WhatIfScenario) : ℚ :=
  if s.include_cpp_oas then 1200 + 615 else 0

def whatIfTotalMonthlyIncome (s : WhatIfScenario) : ℚ :=
  whatIfSavingsMonthlyIncome s + whatIfGovMonthly s

def whatIfDesiredMonthly (s : WhatIfScenario) : ℚ :=
  s.desired_retirement_income / 12

/- savings_gap = desired_monthly_income - total_monthly_income (line 482),
   returned unclamped at line 514. -/
def whatIfGap (s : WhatIfScenario) : ℚ :=
  whatIfDesiredMonthly s - whatIfTotalMonthlyIncome s

/- factor = ((1 + r) ** years - 1) / r (line 491); the exponent is an
   integer-valued Decimal, so ℤ zpow. -/
def whatIfAnnuityFactor (s : WhatIfScenario) : ℚ :=
  ((1 + whatIfRealRate s) ^ whatIfYears s - 1) / whatIfRealRate s

/- All `some` results share every field except the extra contribution added
   to `monthly_contribution_needed` (lines 505-523). -/
def whatIfResultWith (s : WhatIfScenario) (needed : ℚ) : WhatIfResult :=
  { retirement_age := s.retirement_age
    total_savings_at_retirement := whatIfProjected s
    monthly_retirement_income := whatIfTotalMonthlyIncome s
    savings_gap := whatIfGap s
    monthly_contribution_needed := s.monthly_contribution + needed
    years_until_retirement := whatIfYears s
    retirement_duration := s.life_expectancy - s.retirement_age
    savings_by_year := whatIfTrajectory s
    savings_income := whatIfSavingsMonthlyIncome s
    government_benefits := whatIfGovMonthly s }

/-
  Lines 389-534.  The function body is wrapped in try/except which re-raises
  any exception as HTTPException 400; `none` marks those raising paths:
  - line 422 divides by (1 + inflation_rate), DivisionByZero when it is 0;
  - line 493 divides by 12 * factor, DivisionByZero when factor = 0
    (which happens exactly when years_until_retirement = 0);
  - line 502 divides by 12 * years_until_retirement, DivisionByZero when
    years_until_retirement = 0.
-/
def calculate_retirement_what_if (s : WhatIfScenario) : Option WhatIfResult :=
  if 1 + normalizeRate s.inflation_rate = 0 then none
  else if 0 < whatIfGap s then
    if 0 < whatIfRealRate s then
      if whatIfAnnuityFactor s = 0 then none
      else some (whatIfResultWith s
        (whatIfGap s * 12 / (4/100) / (12 * whatIfAnnuityFactor s)))
    else
      if whatIfYears s = 0 then none
      else some (whatIfResultWith s
        (whatIfGap s * 12 / (4/100) / (12 * (whatIfYears s : ℚ))))
  else some (whatIfResultWith s 0)

/-
  The second, parallel implementation:
  utils_calculation_functions.calculate_retirement_what_if (lines 297-383).
  It does not normalize the rates, uses the raw expected_return_rate in the
  growth loop, keys savings_by_year by age, runs the accumulation loop
  `years_until_retirement + 1` times (updating once more after the last
  recorded entry), uses safe_withdrawal_rate = 0.04 - inflation_rate, and
  guards the years_until_retirement = 0 case explicitly (lines 358-368).
-/
namespace Utils

structure WhatIfOutcome where
  retirement_age : ℤ
  total_savings_at_retirement : ℚ
  monthly_retirement_income : ℚ
  savings_gap : ℚ
  monthly_contribution_needed : ℚ
  years_until_retirement : ℤ
  retirement_duration : ℤ
  savings_by_year : List (ℤ × ℚ)
  savings_income : ℚ
  government_benefits : ℚ
deriving DecidableEq

def safeWithdrawalRate (s : WhatIfScenario) : ℚ := 4/100 - s.inflation_rate

/- The loop of lines 339-345 performs years_until_retirement + 1 updates. -/
def projectedAtRetirement (s : WhatIfScenario) : ℚ :=
  projectSavings s.current_savings s.expected_return_rate (s.monthly_contribution * 12)
    (whatIfYears s + 1).toNat

def trajectory (s : WhatIfScenario) : List (ℤ × ℚ) :=
  (List.range (whatIfYears s + 1).toNat).map
    (fun (i : ℕ) => ((s.current_age + (i : ℤ)),
      projectSavings s.current_savings s.expected_return_rate (s.monthly_contribution * 12) i))

def monthlySavingsIncome (s : WhatIfScenario) : ℚ :=
  projectedAtRetirement s * safeWithdrawalRate s / 12

/- monthly_income_gap = desired_retirement_income - total_monthly_income
   (line 355; an annual amount minus a monthly amount, verbatim). -/
def incomeGap (s : WhatIfScenario) : ℚ :=
  s.desired_retirement_income - monthlySavingsIncome s

def additionalSavingsNeeded (s : WhatIfScenario) : ℚ :=
  incomeGap s * 12 / safeWithdrawalRate s

def outcomeWith (s : WhatIfScenario) (needed : ℚ) : WhatIfOutcome :=
  { retirement_age := s.retirement_age
    total_savings_at_retirement := projectedAtRetirement s
    monthly_retirement_income := monthlySavingsIncome s
    savings_gap := additionalSavingsNeeded s
    monthly_contribution_needed := s.monthly_contribution + needed
    years_until_retirement := whatIfYears s
    retirement_duration := s.life_expectancy - s.retirement_age
    savings_by_year := trajectory s
    savings_income := monthlySavingsIncome s
    government_benefits := 0 }

/- Line 356 divides by safe_withdrawal_rate unconditionally, DivisionByZero
   when inflation_rate = 0.04; apart from that the function is total: the
   divisor (1 + rate) ** years - 1 of line 362 is nonzero in its branch
   (rate > 0 and years > 0), and the years = 0 case short-circuits to a zero
   extra contribution (line 368). -/
def calculate_retirement_what_if (s : WhatIfScenario) : Option WhatIfOutcome :=
  if safeWithdrawalRate s = 0 then none
  else if 0 < whatIfYears s then
    if 0 < s.expected_return_rate then
      some (outcomeWith s
        (additionalSavingsNeeded s / ((1 + s.expected_return_rate) ^ whatIfYears s - 1)
          * s.expected_return_rate / 12))
    else
      some (outcomeWith s (additionalSavingsNeeded s / ((whatIfYears s : ℚ) * 12)))
  else some (outcomeWith s 0)

end Utils

/-
  `calculate_financial_metrics` (utils_calculation_functions.py lines
  385-677).  The profile fields read by the function; `age` may be absent
  (`None`).  Python truthiness of a numeric field is being nonzero, and of
  `age` is being present and nonzero.
-/
structure MetricsProfile where
  monthly_income : ℚ
  monthly_expenses : ℚ
  cash_balance : ℚ
  investments : ℚ
  debt : ℚ
  age : Option ℤ
  rrsp_savings : ℚ
  tfsa_savings : ℚ
  other_retirement_accounts : ℚ
  investor_type : String
deriving DecidableEq

/-
  The metric fields this development reasons about, each computed exactly as
  in the source; the guidance-message strings, benchmark strings and the
  investment metrics (total_investments, investment_growth,
  investment_diversity_score) are not modelled since no verified property
  mentions them.  `None`-valued ratios are `Option.none`.
-/
structure FinancialMetrics where
  net_worth : ℚ
  net_worth_status : String
  monthly_cash_flow : Option ℚ
  debt_to_income_ratio : Option ℚ
  debt_status : String
  emergency_fund_ratio : Option ℚ
  emergency_fund_status : String
  savings_rate : Option ℚ
  savings_status : String
  monthly_savings : Option ℚ
  retirement_savings_ratio : Option ℚ
  retirement_status : String
  retirement_readiness_score : Option ℚ
  years_until_retirement : Option ℤ
deriving DecidableEq

/- Python round(x, 1) and round(x, 2); Python uses round-half-to-even while
   Mathlib `round` is round-half-up, a divergence only on exact half-ulp
   ties, which no verified property depends on. -/
def round1 (x : ℚ) : ℚ := ((round (x * 10) : ℤ) : ℚ) / 10
def round2 (x : ℚ) : ℚ := ((round (x * 100) : ℤ) : ℚ) / 100

def calculate_financial_metrics (pd : MetricsProfile) : FinancialMetrics :=
  let annual_income : ℚ := if pd.monthly_income = 0 then 0 else pd.monthly_income * 12
  let total_assets := pd.cash_balance + pd.investments + pd.rrsp_savings
    + pd.tfsa_savings + pd.other_retirement_accounts
  let net_worth := total_assets - pd.debt
  let net_worth_ratio : ℚ := if annual_income = 0 then 0 else net_worth / annual_income
  let net_worth_status :=
    if 0 < annual_income then
      match pd.age with
      | some a =>
          if a ≤ 35 then
            if net_worth_ratio < 1/2 then "Below Target"
            else if net_worth_ratio ≤ 3/2 then "On Track"
            else "Above Target"
          else if a ≤ 50 then
            if net_worth_ratio < 2 then "Below Target"
            else if net_worth_ratio ≤ 5 then "On Track"
            else "Above Target"
          else
            if net_worth_ratio < 6 then "Below Target"
            else if net_worth_ratio ≤ 10 then "On Track"
            else "Above Target"
      | none => "Not Available"
    else "Not Available"
  let monthly_cash_flow : Option ℚ :=
    if pd.monthly_income = 0 ∨ pd.monthly_expenses = 0 then none
    else some (pd.monthly_income - pd.monthly_expenses)
  let monthly_debt_payment : ℚ :=
    if 0 < pd.debt then
      (pd.debt * (5/100) / 12) / (1 - (1 + (5/100) / 12) ^ (-60 : ℤ))
    else 0
  let debt_to_income_ratio : Option ℚ :=
    if pd.monthly_income = 0 then none
    else some (round1 (monthly_debt_payment / pd.monthly_income * 100))
  let debt_status :=
    match debt_to_income_ratio with
    | some r =>
        if 36 < r then "Below Target"
        else if 20 ≤ r then "On Track"
        else "Above Target"
    | none => "Not Available"
  let emergency_fund_ratio : Option ℚ :=
    if pd.monthly_expenses = 0 then none
    else some (round1 (pd.cash_balance / pd.monthly_expenses))
  let ef_status :=
    match emergency_fund_ratio with
    | some r =>
        if r < 3 then "Below Target"
        else if r ≤ 6 then "On Track"
        else "Above Target"
    | none => "Not Available"
  let monthly_savings : Option ℚ :=
    if pd.monthly_income = 0 ∨ pd.monthly_expenses = 0 then none
    else some (pd.monthly_income - pd.monthly_expenses)
  let savings_rate : Option ℚ :=
    match monthly_savings with
    | some sv =>
        if sv = 0 ∨ pd.monthly_income = 0 then none
        else some (round1 (sv / pd.monthly_income * 100))
    | none => none
  let savings_status :=
    match savings_rate with
    | some r =>
        if r < 10 then "Below Target"
        else if r < 20 then "On Track"
        else "Above Target"
    | none => "Not Available"
  let total_retirement_savings := pd.rrsp_savings + pd.tfsa_savings
    + pd.other_retirement_accounts
  let retirement_savings_ratio : Option ℚ :=
    if pd.monthly_income = 0 then none
    else some (round1 (total_retirement_savings / (pd.monthly_income * 12)))
  let retirement_status :=
    match retirement_savings_ratio, pd.age with
    | some r, some a =>
        let target : ℚ :=
          if a < 30 then 1 else if a < 40 then 3 else if a < 50 then 6
          else if a < 60 then 8 else 10
        if r < target then "Below Target"
        else if r ≤ target * (12/10) then "On Track"
        else "Above Target"
    | _, _ => "Not Available"
  let retirement_readiness_score : Option ℚ :=
    match pd.age, retirement_savings_ratio with
    | some a, some r =>
        if a = 0 then none
        else
          let target : ℚ :=
            if a < 30 then 1 else if a < 40 then 3 else if a < 50 then 6 else 8
          some (round1 (min (r / target) 1 * 10))
    | _, _ => none
  let years_until_retirement : Option ℤ :=
    match pd.age with
    | some a => if a = 0 then none else some (65 - a)
    | none => none
  { net_worth := round2 net_worth
    net_worth_status := net_worth_status
    monthly_cash_flow :=
      match monthly_cash_flow with
      | some c => some (round2 c)
      | none => none
    debt_to_income_ratio := debt_to_income_ratio
    debt_status := debt_status
    emergency_fund_ratio := emergency_fund_ratio
    emergency_fund_status := ef_status
    savings_rate := savings_rate
    savings_status := savings_status
    monthly_savings :=
      match monthly_savings with
      | some c => some (round2 c)
      | none => none
    retirement_savings_ratio := retirement_savings_ratio
    retirement_status := retirement_status
    retirement_readiness_score := retirement_readiness_score
    years_until_retirement := years_until_retirement }

/-
  Concrete inputs used to witness or refute individual properties.
-/

/- Age 90, expenses 1000/month, no income, savings or assets: the only
   search candidate (90) is infeasible, so the ceiling branch is taken. -/
def infeasibleProfile : UserData :=
  { age := 90, monthly_income := 0, monthly_expenses := 1000, monthly_savings := 0
    cash_holdings := 0, investment_holdings := 0, rrsp_savings := 0, tfsa_savings := 0
    desired_retirement_lifestyle := "moderate" }

/- A well-typed, non-negative profile whose age exceeds the 90 ceiling. -/
def overCeilingProfile : UserData :=
  { age := 91, monthly_income := 1000, monthly_expenses := 500, monthly_savings := 100
    cash_holdings := 1000, investment_holdings := 1000, rrsp_savings := 0, tfsa_savings := 0
    desired_retirement_lifestyle := "moderate" }

/- retirement_age = current_age with a positive income gap. -/
def zeroYearsScenario : WhatIfScenario :=
  { current_age := 65, retirement_age := 65, life_expectancy := 90
    current_savings := 0, monthly_contribution := 500
    expected_return_rate := 6/100, inflation_rate := 2/100
    desired_retirement_income := 60000, include_cpp_oas := false }

/- Age 90 with enough cash that the single candidate age 90 is feasible. -/
def feasibleProfile : UserData :=
  { age := 90, monthly_income := 0, monthly_expenses := 1000, monthly_savings := 0
    cash_holdings := 1000000, investment_holdings := 0, rrsp_savings := 0, tfsa_savings := 0
    desired_retirement_lifestyle := "moderate" }

/- Base profile for the contribution-monotonicity witness. -/
def monotonicityProfile : UserData :=
  { age := 89, monthly_income := 0, monthly_expenses := 10, monthly_savings := 0
    cash_holdings := 0, investment_holdings := 0, rrsp_savings := 0, tfsa_savings := 0
    desired_retirement_lifestyle := "moderate" }

/- 25 years to retirement, zero rates and amounts. -/
def lengthScenario : WhatIfScenario :=
  { current_age := 40, retirement_age := 65, life_expectancy := 90
    current_savings := 0, monthly_contribution := 0
    expected_return_rate := 0, inflation_rate := 0
    desired_retirement_income := 0, include_cpp_oas := false }

/- Both denominators (income and expenses) zero. -/
def zeroDenomProfile : MetricsProfile :=
  { monthly_income := 0, monthly_expenses := 0, cash_balance := 5000, investments := 0
    debt := 0, age := some 30, rrsp_savings := 0, tfsa_savings := 0
    other_retirement_accounts := 0, investor_type := "" }

/- Projected income (3,000,000 * 4% / 12 = 10,000 a month) exceeds the
   desired income of 0. -/
def surplusScenario : WhatIfScenario :=
  { current_age := 60, retirement_age := 60, life_expectancy := 90
    current_savings := 3000000, monthly_contribution := 0
    expected_return_rate := 0, inflation_rate := 0
    desired_retirement_income := 0, include_cpp_oas := false }

/- Age 90, everything zero: candidate 90 is feasible (0 >= 0). -/
def clampProfile : UserData :=
  { age := 90, monthly_income := 0, monthly_expenses := 0, monthly_savings := 0
    cash_holdings := 0, investment_holdings := 0, rrsp_savings := 0, tfsa_savings := 0
    desired_retirement_lifestyle := "moderate" }

/-
  Helper lemmas.
-/

/- One loop iteration of the tax computation, rewritten as a difference of
   capped amounts, valid for brackets with 0 <= lo <= hi. -/
lemma bracket_tax_eq (annual lo hi rate : ℚ) (hlh : lo ≤ hi) :
    bracket_tax annual lo hi rate = rate * (min annual hi - min annual lo) := by
  unfold bracket_tax
  rcases le_or_lt annual lo with h | h
  · rw [if_neg (not_lt.2 h), min_eq_left h, min_eq_left (h.trans hlh)]
    ring
  · rw [if_pos h, min_eq_right h.le]
    rcases le_total annual hi with h2 | h2
    · rw [min_eq_left h2, min_eq_left (by linarith : annual - lo ≤ hi - lo)]
      ring
    · rw [min_eq_right h2, min_eq_right (by linarith : hi - lo ≤ annual - lo)]
      ring

lemma top_bracket_tax_eq (annual lo rate : ℚ) :
    top_bracket_tax annual lo rate = rate * (annual - min annual lo) := by
  unfold top_bracket_tax
  rcases le_or_lt annual lo with h | h
  · rw [if_neg (not_lt.2 h), min_eq_left h]
    ring
  · rw [if_pos h, min_eq_right h.le]
    ring

lemma min_sub_min_nonneg (a b c : ℚ) (h : a ≤ b) : 0 ≤ min b c - min a c :=
  sub_nonneg.2 (min_le_min h le_rfl)

/- The after-tax income is non-decreasing: writing the total tax as a
   positive combination of capped slices, the increment of each slice is
   non-negative and the marginal rates stay below 1. -/
lemma calculate_after_tax_income_mono (x y : ℚ) (h : x ≤ y) :
    calculate_after_tax_income x ≤ calculate_after_tax_income y := by
  simp only [calculate_after_tax_income]
  rw [bracket_tax_eq (x * 12) 0 55867 _ (by norm_num),
    bracket_tax_eq (x * 12) 55867 111733 _ (by norm_num),
    bracket_tax_eq (x * 12) 111733 173205 _ (by norm_num),
    bracket_tax_eq (x * 12) 173205 246752 _ (by norm_num),
    top_bracket_tax_eq (x * 12) 246752 _,
    bracket_tax_eq (y * 12) 0 55867 _ (by norm_num),
    bracket_tax_eq (y * 12) 55867 111733 _ (by norm_num),
    bracket_tax_eq (y * 12) 111733 173205 _ (by norm_num),
    bracket_tax_eq (y * 12) 173205 246752 _ (by norm_num),
    top_bracket_tax_eq (y * 12) 246752 _]
  have h12 : x * 12 ≤ y * 12 := by linarith
  have d0 := min_sub_min_nonneg (x * 12) (y * 12) 0 h12
  have d1 := min_sub_min_nonneg (x * 12) (y * 12) 55867 h12
  have d2 := min_sub_min_nonneg (x * 12) (y * 12) 111733 h12
  have d3 := min_sub_min_nonneg (x * 12) (y * 12) 173205 h12
  have d4 := min_sub_min_nonneg (x * 12) (y * 12) 246752 h12
  linarith

lemma calculate_after_tax_income_zero : calculate_after_tax_income 0 = 0 := by
  unfold calculate_after_tax_income bracket_tax top_bracket_tax
  norm_num

/- One unfolding of the search loop. -/
lemma searchFromAge_step (u : UserData) (fuel a : ℕ) :
    searchFromAge u (fuel + 1) a =
      if a ≤ 90 then
        (if feasibleAt u a then some a else searchFromAge u fuel (a + 1))
      else none := rfl

/- Soundness of the feasibility search: a returned age lies in the scanned
   range, is feasible, and no earlier scanned age is feasible. -/
lemma searchFromAge_spec (u : UserData) :
    ∀ fuel a r : ℕ, 91 - a < fuel → searchFromAge u fuel a = some r →
      a ≤ r ∧ r ≤ 90 ∧ feasibleAt u r ∧ ∀ b, a ≤ b → b < r → ¬ feasibleAt u b := by
  intro fuel
  induction fuel with
  | zero => intro a r hf _; omega
  | succ n ih =>
      intro a r hf hs
      rw [searchFromAge_step] at hs
      by_cases h90 : a ≤ 90
      · rw [if_pos h90] at hs
        by_cases hfe : feasibleAt u a
        · rw [if_pos hfe] at hs
          have har := Option.some.inj hs
          subst har
          refine ⟨le_rfl, h90, hfe, ?_⟩
          intro b hb1 hb2
          exact absurd hb2 (by omega)
        · rw [if_neg hfe] at hs
          obtain ⟨h1, h2, h3, h4⟩ := ih (a + 1) r (by omega) hs
          refine ⟨by omega, h2, h3, ?_⟩
          intro b hb1 hb2
          rcases eq_or_lt_of_le hb1 with rfl | hlt
          · exact hfe
          · exact h4 b (by omega) hb2
      · rw [if_neg h90] at hs
        exact absurd hs (by simp)

/- Completeness: if some age in the scanned range is feasible, the search
   succeeds and stops no later than that age. -/
lemma searchFromAge_complete (u : UserData) :
    ∀ fuel a c : ℕ, 91 - a < fuel → a ≤ c → c ≤ 90 → feasibleAt u c →
      ∃ r, searchFromAge u fuel a = some r ∧ r ≤ c := by
  intro fuel
  induction fuel with
  | zero => intro a c hf _ _ _; omega
  | succ n ih =>
      intro a c hf hac hc90 hfc
      rw [searchFromAge_step, if_pos (le_trans hac hc90)]
      by_cases hfe : feasibleAt u a
      · rw [if_pos hfe]
        exact ⟨a, rfl, hac⟩
      · rw [if_neg hfe]
        have hne : a ≠ c := by
          rintro rfl
          exact hfe hfc
        exact ih (a + 1) c (by omega) (by omega) hc90 hfc

lemma plan_eq_found (u : UserData) (a : ℕ) (hs : searchRetirementAge u = some a) :
    calculate_current_retirement_plan u = some (planResultFound u a) := by
  unfold calculate_current_retirement_plan
  rw [hs]

lemma plan_eq_ceiling (u : UserData) (hs : searchRetirementAge u = none)
    (h : u.age ≤ 90) :
    calculate_current_retirement_plan u = some (planResultCeiling u) := by
  unfold calculate_current_retirement_plan
  rw [hs]
  exact if_pos h

/- The year-by-year accumulation is monotone in the annual contribution
   (the growth factor 1 + rate is non-negative). -/
lemma calculate_future_savings_mono (c r a1 a2 : ℚ) (hr : 0 ≤ 1 + r) (h : a1 ≤ a2) :
    ∀ y, calculate_future_savings c a1 r y ≤ calculate_future_savings c a2 r y := by
  intro y
  induction y with
  | zero => exact le_rfl
  | succ n ih =>
      simp only [calculate_future_savings]
      have := mul_le_mul_of_nonneg_right ih hr
      linarith

/- Raising the monthly savings contribution preserves feasibility of any
   candidate age (the required side does not depend on the contribution). -/
lemma feasibleAt_mono (u : UserData) (m2 : ℚ) (hm : u.monthly_savings ≤ m2) (a : ℕ)
    (hf : feasibleAt u a) : feasibleAt { u with monthly_savings := m2 } a := by
  have h1 : requiredSavings { u with monthly_savings := m2 } (a - u.age)
      = requiredSavings u (a - u.age) := rfl
  have h2 : projectedCash { u with monthly_savings := m2 } (a - u.age)
      = projectedCash u (a - u.age) := rfl
  have hann : annualSavings u ≤ annualSavings { u with monthly_savings := m2 } := by
    unfold annualSavings
    have := calculate_after_tax_income_mono u.monthly_savings m2 hm
    linarith
  have h3 : projectedInvestments u (a - u.age)
      ≤ projectedInvestments { u with monthly_savings := m2 } (a - u.age) := by
    unfold projectedInvestments
    have h4 : currentInvestments { u with monthly_savings := m2 } = currentInvestments u := rfl
    rw [h4]
    exact calculate_future_savings_mono _ _ _ _
      (by norm_num [expectedReturn]) hann _
  show requiredSavings { u with monthly_savings := m2 } (a - u.age)
      ≤ totalProjectedAssets { u with monthly_savings := m2 } (a - u.age)
  unfold totalProjectedAssets
  unfold feasibleAt totalProjectedAssets at hf
  rw [h1, h2]
  linarith

/- Every successful what-if result is the common response shape, for some
   extra contribution. -/
lemma whatIf_some_shape (s : WhatIfScenario) (r : WhatIfResult)
    (h : calculate_retirement_what_if s = some r) :
    ∃ extra, r = whatIfResultWith s extra := by
  unfold calculate_retirement_what_if at h
  split_ifs at h <;> exact ⟨_, (Option.some.inj h).symm⟩

lemma utils_whatIf_some_shape (s : WhatIfScenario) (r : Utils.WhatIfOutcome)
    (h : Utils.calculate_retirement_what_if s = some r) :
    ∃ extra, r = Utils.outcomeWith s extra := by
  unfold Utils.calculate_retirement_what_if at h
  split_ifs at h <;> exact ⟨_, (Option.some.inj h).symm⟩

lemma whatIfTrajectory_length (s : WhatIfScenario) :
    (whatIfTrajectory s).length = (whatIfYears s).toNat + 1 := by
  simp [whatIfTrajectory]

lemma utils_trajectory_length (s : WhatIfScenario) :
    (Utils.trajectory s).length = (whatIfYears s + 1).toNat := by
  simp [Utils.trajectory]

/- The what-if computation depends on expected_return_rate only through its
   normalization. -/
lemma whatIf_congr_return_rate (s : WhatIfScenario) (a b : ℚ)
    (h : normalizeRate a = normalizeRate b) :
    calculate_retirement_what_if { s with expected_return_rate := a } =
    calculate_retirement_what_if { s with expected_return_rate := b } := by
  simp only [calculate_retirement_what_if, whatIfResultWith, whatIfGap,
    whatIfTotalMonthlyIncome, whatIfSavingsMonthlyIncome, whatIfProjected,
    whatIfTrajectory, whatIfRealRate, whatIfYears, whatIfDesiredMonthly,
    whatIfGovMonthly, whatIfAnnuityFactor, h]

/-- C4: whenever some candidate age between current_age and the ceiling 90
satisfies projected_cash + projected_investments >= required_savings,
calculate_current_retirement_plan returns the smallest such age as
retirement_age, no earlier scanned age is feasible, and the
projected_savings and required_savings fields are the values computed at
exactly that age. -/
theorem claim_C4_earliest_feasible_age (u : UserData) (a0 : ℕ)
    (h1 : u.age ≤ a0) (h2 : a0 ≤ 90) (h3 : feasibleAt u a0) :
    ∃ p, calculate_current_retirement_plan u = some p ∧
      u.age ≤ p.retirement_age ∧ p.retirement_age ≤ 90 ∧
      feasibleAt u p.retirement_age ∧
      (∀ b, u.age ≤ b → b < p.retirement_age → ¬ feasibleAt u b) ∧
      p.projected_savings = totalProjectedAssets u (p.retirement_age - u.age) ∧
      p.required_savings = requiredSavings u (p.retirement_age - u.age) := by
  obtain ⟨r, hr, _⟩ := searchFromAge_complete u 92 u.age a0 (by omega) h1 h2 h3
  obtain ⟨g1, g2, g3, g4⟩ := searchFromAge_spec u 92 u.age r (by omega) hr
  exact ⟨planResultFound u r, plan_eq_found u r hr, g1, g2, g3, g4, rfl, rfl⟩

/-- C5: increasing the monthly savings contribution, all other inputs held
fixed, never increases the computed retirement_age or savings_gap. -/
theorem claim_C5_contribution_monotone (u : UserData) (m2 : ℚ)
    (hage : u.age ≤ 90) (hm : u.monthly_savings ≤ m2) :
    ∃ p1 p2, calculate_current_retirement_plan u = some p1 ∧
      calculate_current_retirement_plan { u with monthly_savings := m2 } = some p2 ∧
      p2.retirement_age ≤ p1.retirement_age ∧ p2.savings_gap ≤ p1.savings_gap := by
  rcases hs1 : searchRetirementAge u with _ | a1
  · rcases hs2 : searchRetirementAge { u with monthly_savings := m2 } with _ | a2
    · refine ⟨planResultCeiling u, planResultCeiling { u with monthly_savings := m2 },
        plan_eq_ceiling u hs1 hage, plan_eq_ceiling _ hs2 hage, le_rfl, ?_⟩
      exact le_of_eq rfl
    · obtain ⟨g1, g2, g3, g4⟩ :=
        searchFromAge_spec { u with monthly_savings := m2 } 92 u.age a2 (by omega) hs2
      refine ⟨planResultCeiling u, planResultFound { u with monthly_savings := m2 } a2,
        plan_eq_ceiling u hs1 hage, plan_eq_found _ a2 hs2, g2, ?_⟩
      have hg2 : (planResultFound { u with monthly_savings := m2 } a2).savings_gap = 0 := by
        have h5 : requiredSavings { u with monthly_savings := m2 } (a2 - u.age)
            ≤ totalProjectedAssets { u with monthly_savings := m2 } (a2 - u.age) := g3
        exact max_eq_left (by linarith)
      rw [hg2]
      exact le_max_left 0 _
  · obtain ⟨h1, h2, h3, _⟩ := searchFromAge_spec u 92 u.age a1 (by omega) hs1
    have hf2 : feasibleAt { u with monthly_savings := m2 } a1 := feasibleAt_mono u m2 hm a1 h3
    obtain ⟨r, hr, hrle⟩ :=
      searchFromAge_complete { u with monthly_savings := m2 } 92 u.age a1 (by omega) h1 h2 hf2
    obtain ⟨g1, g2, g3, _⟩ :=
      searchFromAge_spec { u with monthly_savings := m2 } 92 u.age r (by omega) hr
    refine ⟨planResultFound u a1, planResultFound { u with monthly_savings := m2 } r,
      plan_eq_found u a1 hs1, plan_eq_found _ r hr, hrle, ?_⟩
    have hg1 : (planResultFound u a1).savings_gap = 0 := by
      have h5 : requiredSavings u (a1 - u.age) ≤ totalProjectedAssets u (a1 - u.age) := h3
      exact max_eq_left (by linarith)
    have hg2 : (planResultFound { u with monthly_savings := m2 } r).savings_gap = 0 := by
      have h5 : requiredSavings { u with monthly_savings := m2 } (r - u.age)
          ≤ totalProjectedAssets { u with monthly_savings := m2 } (r - u.age) := g3
      exact max_eq_left (by linarith)
    rw [hg1, hg2]

/-- C6: calculate_after_tax_income is non-decreasing on non-negative monthly
incomes, and maps 0 to 0. -/
theorem claim_C6_after_tax_monotone :
    (∀ x y : ℚ, 0 ≤ x → x ≤ y →
      calculate_after_tax_income x ≤ calculate_after_tax_income y) ∧
    calculate_after_tax_income 0 = 0 :=
  ⟨fun x y _ hxy => calculate_after_tax_income_mono x y hxy,
   calculate_after_tax_income_zero⟩

/-- C6 witness at the incomes 1 and 2. -/
theorem claim_C6_after_tax_monotone_witness :
    (0 : ℚ) ≤ 1 ∧ (1 : ℚ) ≤ 2 ∧
      calculate_after_tax_income 1 ≤ calculate_after_tax_income 2 :=
  ⟨by norm_num, by norm_num,
   claim_C6_after_tax_monotone.1 1 2 (by norm_num) (by norm_num)⟩

/-- C7: calculate_retirement_what_if divides a raw rate by 100 exactly when
it exceeds 1 and uses it unchanged otherwise, so the inputs 6 and 0.06 for
expected_return_rate produce identical results. -/
theorem claim_C7_rate_normalization :
    (∀ x : ℚ, 1 < x → normalizeRate x = x / 100) ∧
    (∀ x : ℚ, x ≤ 1 → normalizeRate x = x) ∧
    (∀ s : WhatIfScenario,
      calculate_retirement_what_if { s with expected_return_rate := 6 } =
      calculate_retirement_what_if { s with expected_return_rate := 6/100 }) :=
  ⟨fun _ hx => if_pos hx,
   fun _ hx => if_neg (not_lt.2 hx),
   fun s => whatIf_congr_return_rate s 6 (6/100) (by norm_num [normalizeRate])⟩

/-- C7 witness: a rate above 1 is divided by 100, a rate at most 1 is kept. -/
theorem claim_C7_rate_normalization_witness :
    (1 : ℚ) < 2 ∧ normalizeRate 2 = 2 / 100 ∧
    (1/2 : ℚ) ≤ 1 ∧ normalizeRate (1/2) = 1/2 :=
  ⟨by norm_num, claim_C7_rate_normalization.1 2 (by norm_num),
   by norm_num, claim_C7_rate_normalization.2.1 (1/2) (by norm_num)⟩

/-- C8: whenever retirement_age >= current_age and the what-if calculation
returns, its savings_by_year list has exactly years_until_retirement + 1
entries, in both parallel implementations. -/
theorem claim_C8_trajectory_entries :
    (∀ (s : WhatIfScenario) (r : WhatIfResult), s.current_age ≤ s.retirement_age →
      calculate_retirement_what_if s = some r →
      (r.savings_by_year.length : ℤ) = (s.retirement_age - s.current_age) + 1) ∧
    (∀ (s : WhatIfScenario) (r : Utils.WhatIfOutcome), s.current_age ≤ s.retirement_age →
      Utils.calculate_retirement_what_if s = some r →
      (r.savings_by_year.length : ℤ) = (s.retirement_age - s.current_age) + 1) := by
  constructor
  · intro s r hcr h
    obtain ⟨extra, rfl⟩ := whatIf_some_shape s r h
    have hy : (0 : ℤ) ≤ whatIfYears s := sub_nonneg.2 hcr
    show ((whatIfTrajectory s).length : ℤ) = s.retirement_age - s.current_age + 1
    rw [whatIfTrajectory_length]
    push_cast [Int.toNat_of_nonneg hy]
    rfl
  · intro s r hcr h
    obtain ⟨extra, rfl⟩ := utils_whatIf_some_shape s r h
    have hy : (0 : ℤ) ≤ whatIfYears s + 1 := by
      have := sub_nonneg.2 hcr
      unfold whatIfYears
      linarith
    show ((Utils.trajectory s).length : ℤ) = s.retirement_age - s.current_age + 1
    rw [utils_trajectory_length]
    rw [Int.toNat_of_nonneg hy]
    rfl

/-- C10: the what-if savings_gap is the unclamped difference between desired
monthly income and total projected monthly income, hence negative whenever
the projected income exceeds the desired income, while the plan result's
savings_gap is clamped at 0. -/
theorem claim_C10_gap_unclamped :
    (∀ s : WhatIfScenario, 1 + normalizeRate s.inflation_rate ≠ 0 →
      whatIfDesiredMonthly s < whatIfTotalMonthlyIncome s →
      ∃ r, calculate_retirement_what_if s = some r ∧
        r.savings_gap = whatIfDesiredMonthly s - whatIfTotalMonthlyIncome s ∧
        r.savings_gap < 0) ∧
    (∀ u : UserData, u.age ≤ 90 →
      ∃ p, calculate_current_retirement_plan u = some p ∧ 0 ≤ p.savings_gap) := by
  constructor
  · intro s h1 h2
    have hgap : ¬ 0 < whatIfGap s := by
      unfold whatIfGap
      linarith
    refine ⟨whatIfResultWith s 0, ?_, rfl, ?_⟩
    · unfold calculate_retirement_what_if
      rw [if_neg h1, if_neg hgap]
    · show whatIfGap s < 0
      unfold whatIfGap
      linarith
  · intro u h
    rcases hs : searchRetirementAge u with _ | a
    · exact ⟨planResultCeiling u, plan_eq_ceiling u hs h, le_max_left 0 _⟩
    · exact ⟨planResultFound u a, plan_eq_found u a hs, le_max_left 0 _⟩

lemma projectSavings_zero (r : ℚ) : ∀ n, projectSavings 0 r 0 n = 0 := by
  intro n
  induction n with
  | zero => rfl
  | succ k ih => simp [projectSavings, ih]

/-- C1: the claim fails on the code. For infeasibleProfile no candidate age
up to the ceiling is feasible (age 90 is the only candidate and it is
infeasible), and the function does return retirement_age = 90, but it
reports savings_gap = 0 and required_savings = 0 instead of the positive
shortfall of 210000 between required and projected savings at the ceiling
age, because the feasible_* accumulators are never updated on the
infeasible path. -/
theorem claim_C1_infeasible_zero_gap :
    calculate_current_retirement_plan infeasibleProfile =
      some (planResultCeiling infeasibleProfile) ∧
    (planResultCeiling infeasibleProfile).retirement_age = 90 ∧
    (planResultCeiling infeasibleProfile).savings_gap = 0 ∧
    (planResultCeiling infeasibleProfile).required_savings = 0 ∧
    ¬ feasibleAt infeasibleProfile 90 ∧
    requiredSavings infeasibleProfile 0 - totalProjectedAssets infeasibleProfile 0
      = 210000 := by
  have hfeas : ¬ feasibleAt infeasibleProfile 90 := by
    norm_num [feasibleAt, requiredSavings, totalProjectedAssets, projectedCash,
      projectedInvestments, future_value, calculate_future_savings, annualSavings,
      calculate_after_tax_income, bracket_tax, top_bracket_tax, currentInvestments,
      infeasibleProfile, inflationRate, expectedReturn, withdrawalRate, lifestyleFactor]
  have hsearch : searchRetirementAge infeasibleProfile = none := by
    show searchFromAge infeasibleProfile (91 + 1) 90 = none
    rw [searchFromAge_step, if_pos (by norm_num), if_neg hfeas]
    show searchFromAge infeasibleProfile (90 + 1) 91 = none
    rw [searchFromAge_step, if_neg (by norm_num)]
  refine ⟨plan_eq_ceiling infeasibleProfile hsearch (by norm_num [infeasibleProfile]),
    rfl, ?_, rfl, hfeas, ?_⟩
  · show max 0 (0 - (infeasibleProfile.cash_holdings + currentInvestments infeasibleProfile)) = 0
    norm_num [infeasibleProfile, currentInvestments]
  · norm_num [requiredSavings, totalProjectedAssets, projectedCash,
      projectedInvestments, future_value, calculate_future_savings, annualSavings,
      calculate_after_tax_income, bracket_tax, top_bracket_tax, currentInvestments,
      infeasibleProfile, inflationRate, expectedReturn, withdrawalRate, lifestyleFactor]

/-- C2: the claim fails on the code. overCeilingProfile is well-typed with
non-negative financial fields and current_age = 91 > 90, and
calculate_current_retirement_plan raises on it (NameError on
total_government_benefits, whose binding loop body never runs), modelled by
the none result, instead of degrading to the ceiling-reached result. -/
theorem claim_C2_age_above_ceiling_raises :
    (0 : ℚ) ≤ overCeilingProfile.monthly_income ∧
    (0 : ℚ) ≤ overCeilingProfile.monthly_expenses ∧
    (0 : ℚ) ≤ overCeilingProfile.monthly_savings ∧
    (0 : ℚ) ≤ overCeilingProfile.cash_holdings ∧
    (0 : ℚ) ≤ overCeilingProfile.investment_holdings ∧
    (0 : ℚ) ≤ overCeilingProfile.rrsp_savings ∧
    (0 : ℚ) ≤ overCeilingProfile.tfsa_savings ∧
    90 ≤ overCeilingProfile.age ∧
    calculate_current_retirement_plan overCeilingProfile = none := by
  refine ⟨?_, ?_, ?_, ?_, ?_, ?_, ?_, ?_, rfl⟩ <;> norm_num [overCeilingProfile]

/-- C3: the claim fails on the live code path. zeroYearsScenario has
years_until_retirement = 0 and a positive income gap;
retirement_functions.calculate_retirement_what_if divides by zero there
(the annuity factor is 0) and raises, modelled by none, while the parallel
utils_calculation_functions implementation short-circuits and returns
monthly_contribution_needed equal to the original monthly contribution. -/
theorem claim_C3_zero_years_divide_by_zero :
    whatIfYears zeroYearsScenario = 0 ∧
    0 < whatIfGap zeroYearsScenario ∧
    calculate_retirement_what_if zeroYearsScenario = none ∧
    Utils.calculate_retirement_what_if zeroYearsScenario =
      some (Utils.outcomeWith zeroYearsScenario 0) ∧
    (Utils.outcomeWith zeroYearsScenario 0).monthly_contribution_needed =
      zeroYearsScenario.monthly_contribution := by
  refine ⟨rfl, ?_, ?_, ?_, ?_⟩
  · norm_num [whatIfGap, whatIfDesiredMonthly, whatIfTotalMonthlyIncome,
      whatIfSavingsMonthlyIncome, whatIfGovMonthly, whatIfProjected, whatIfYears,
      whatIfRealRate, normalizeRate, projectSavings, zeroYearsScenario]
  · unfold calculate_retirement_what_if
    rw [if_neg (by norm_num [normalizeRate, zeroYearsScenario] :
          ¬ 1 + normalizeRate zeroYearsScenario.inflation_rate = 0),
      if_pos (by norm_num [whatIfGap, whatIfDesiredMonthly, whatIfTotalMonthlyIncome,
        whatIfSavingsMonthlyIncome, whatIfGovMonthly, whatIfProjected, whatIfYears,
        whatIfRealRate, normalizeRate, projectSavings, zeroYearsScenario] :
          0 < whatIfGap zeroYearsScenario),
      if_pos (by norm_num [whatIfRealRate, normalizeRate, zeroYearsScenario] :
          0 < whatIfRealRate zeroYearsScenario),
      if_pos (by norm_num [whatIfAnnuityFactor, whatIfRealRate, whatIfYears,
        normalizeRate, zeroYearsScenario] : whatIfAnnuityFactor zeroYearsScenario = 0)]
  · unfold Utils.calculate_retirement_what_if
    rw [if_neg (by norm_num [Utils.safeWithdrawalRate, zeroYearsScenario] :
          ¬ Utils.safeWithdrawalRate zeroYearsScenario = 0),
      if_neg (by norm_num [whatIfYears, zeroYearsScenario] :
          ¬ 0 < whatIfYears zeroYearsScenario)]
  · norm_num [Utils.outcomeWith, zeroYearsScenario]

/-- C9: every ratio of calculate_financial_metrics whose denominator is
zero is reported as none with status "Not Available" instead of raising:
monthly_expenses = 0 forces the emergency-fund and cash-flow metrics to
none, and monthly_income = 0 forces the debt-to-income, savings-rate,
retirement-ratio and net-worth assessments to none / "Not Available". -/
theorem claim_C9_zero_denominators (pd : MetricsProfile) :
    (pd.monthly_expenses = 0 →
      (calculate_financial_metrics pd).emergency_fund_ratio = none ∧
      (calculate_financial_metrics pd).emergency_fund_status = "Not Available" ∧
      (calculate_financial_metrics pd).monthly_cash_flow = none ∧
      (calculate_financial_metrics pd).monthly_savings = none ∧
      (calculate_financial_metrics pd).savings_rate = none ∧
      (calculate_financial_metrics pd).savings_status = "Not Available") ∧
    (pd.monthly_income = 0 →
      (calculate_financial_metrics pd).debt_to_income_ratio = none ∧
      (calculate_financial_metrics pd).debt_status = "Not Available" ∧
      (calculate_financial_metrics pd).savings_rate = none ∧
      (calculate_financial_metrics pd).savings_status = "Not Available" ∧
      (calculate_financial_metrics pd).retirement_savings_ratio = none ∧
      (calculate_financial_metrics pd).retirement_status = "Not Available" ∧
      (calculate_financial_metrics pd).net_worth_status = "Not Available") := by
  constructor
  · intro h
    simp [calculate_financial_metrics, h]
  · intro h
    simp [calculate_financial_metrics, h]

/-- C9 witness at a profile with both denominators zero. -/
theorem claim_C9_zero_denominators_witness :
    (calculate_financial_metrics zeroDenomProfile).emergency_fund_ratio = none ∧
    (calculate_financial_metrics zeroDenomProfile).emergency_fund_status = "Not Available" ∧
    (calculate_financial_metrics zeroDenomProfile).debt_to_income_ratio = none ∧
    (calculate_financial_metrics zeroDenomProfile).retirement_status = "Not Available" :=
  ⟨((claim_C9_zero_denominators zeroDenomProfile).1 rfl).1,
   ((claim_C9_zero_denominators zeroDenomProfile).1 rfl).2.1,
   ((claim_C9_zero_denominators zeroDenomProfile).2 rfl).1,
   ((claim_C9_zero_denominators zeroDenomProfile).2 rfl).2.2.2.2.2.1⟩

/-- C4 witness: feasibleProfile has its single candidate age 90 feasible. -/
theorem claim_C4_earliest_feasible_age_witness :
    feasibleProfile.age ≤ 90 ∧ feasibleAt feasibleProfile 90 ∧
    (∃ p, calculate_current_retirement_plan feasibleProfile = some p ∧
      p.retirement_age ≤ 90 ∧ feasibleAt feasibleProfile p.retirement_age) := by
  have hfeas : feasibleAt feasibleProfile 90 := by
    norm_num [feasibleAt, requiredSavings, totalProjectedAssets, projectedCash,
      projectedInvestments, future_value, calculate_future_savings, annualSavings,
      calculate_after_tax_income, bracket_tax, top_bracket_tax, currentInvestments,
      feasibleProfile, inflationRate, expectedReturn, withdrawalRate, lifestyleFactor]
  refine ⟨by norm_num [feasibleProfile], hfeas, ?_⟩
  obtain ⟨p, hp, _, h90, hf, _, _, _⟩ :=
    claim_C4_earliest_feasible_age feasibleProfile 90
      (by norm_num [feasibleProfile]) le_rfl hfeas
  exact ⟨p, hp, h90, hf⟩

/-- C5 witness: raising the contribution of monotonicityProfile from 0 to 5. -/
theorem claim_C5_contribution_monotone_witness :
    monotonicityProfile.age ≤ 90 ∧ monotonicityProfile.monthly_savings ≤ 5 ∧
    (∃ p1 p2, calculate_current_retirement_plan monotonicityProfile = some p1 ∧
      calculate_current_retirement_plan
        { monotonicityProfile with monthly_savings := 5 } = some p2 ∧
      p2.retirement_age ≤ p1.retirement_age ∧ p2.savings_gap ≤ p1.savings_gap) :=
  ⟨by norm_num [monotonicityProfile], by norm_num [monotonicityProfile],
   claim_C5_contribution_monotone monotonicityProfile 5
     (by norm_num [monotonicityProfile]) (by norm_num [monotonicityProfile])⟩

/-- C8 witness: 26 trajectory entries for the 25-year lengthScenario, in
both implementations. -/
theorem claim_C8_trajectory_entries_witness :
    lengthScenario.current_age ≤ lengthScenario.retirement_age ∧
    (((whatIfResultWith lengthScenario 0).savings_by_year.length : ℤ) =
      (lengthScenario.retirement_age - lengthScenario.current_age) + 1) ∧
    (((Utils.outcomeWith lengthScenario 0).savings_by_year.length : ℤ) =
      (lengthScenario.retirement_age - lengthScenario.current_age) + 1) := by
  have hproj : whatIfProjected lengthScenario = 0 := by
    unfold whatIfProjected
    norm_num [lengthScenario, projectSavings_zero]
  have hgap : ¬ 0 < whatIfGap lengthScenario := by
    simp only [whatIfGap, whatIfDesiredMonthly, whatIfTotalMonthlyIncome,
      whatIfSavingsMonthlyIncome, whatIfGovMonthly, hproj]
    norm_num [lengthScenario]
  have hW : calculate_retirement_what_if lengthScenario =
      some (whatIfResultWith lengthScenario 0) := by
    unfold calculate_retirement_what_if
    rw [if_neg (by norm_num [normalizeRate, lengthScenario] :
          ¬ 1 + normalizeRate lengthScenario.inflation_rate = 0),
      if_neg hgap]
  have hprojU : Utils.projectedAtRetirement lengthScenario = 0 := by
    unfold Utils.projectedAtRetirement
    norm_num [lengthScenario, projectSavings_zero]
  have hadd : Utils.additionalSavingsNeeded lengthScenario = 0 := by
    simp only [Utils.additionalSavingsNeeded, Utils.incomeGap,
      Utils.monthlySavingsIncome, hprojU]
    norm_num [Utils.safeWithdrawalRate, lengthScenario]
  have hU : Utils.calculate_retirement_what_if lengthScenario =
      some (Utils.outcomeWith lengthScenario 0) := by
    unfold Utils.calculate_retirement_what_if
    rw [if_neg (by norm_num [Utils.safeWithdrawalRate, lengthScenario] :
          ¬ Utils.safeWithdrawalRate lengthScenario = 0),
      if_pos (by norm_num [whatIfYears, lengthScenario] :
          0 < whatIfYears lengthScenario),
      if_neg (by norm_num [lengthScenario] :
          ¬ 0 < lengthScenario.expected_return_rate),
      hadd]
    norm_num
  exact ⟨by norm_num [lengthScenario],
    claim_C8_trajectory_entries.1 lengthScenario _ (by norm_num [lengthScenario]) hW,
    claim_C8_trajectory_entries.2 lengthScenario _ (by norm_num [lengthScenario]) hU⟩

/-- C10 witness: surplusScenario has projected income above the desired
income, and clampProfile has a plan result with clamped gap. -/
theorem claim_C10_gap_unclamped_witness :
    (∃ r, calculate_retirement_what_if surplusScenario = some r ∧
      r.savings_gap = whatIfDesiredMonthly surplusScenario
        - whatIfTotalMonthlyIncome surplusScenario ∧ r.savings_gap < 0) ∧
    (∃ p, calculate_current_retirement_plan clampProfile = some p ∧
      0 ≤ p.savings_gap) := by
  have hp : whatIfProjected surplusScenario = 3000000 := by
    unfold whatIfProjected
    norm_num [surplusScenario, whatIfYears, projectSavings]
  constructor
  · exact claim_C10_gap_unclamped.1 surplusScenario
      (by norm_num [surplusScenario, normalizeRate])
      (by
        simp only [whatIfDesiredMonthly, whatIfTotalMonthlyIncome,
          whatIfSavingsMonthlyIncome, whatIfGovMonthly, hp]
        norm_num [surplusScenario])
  · exact claim_C10_gap_unclamped.2 clampProfile (by norm_num [clampProfile])
